import Mathlib

/- Formal model of `src/streamlit_app.py` (Waukesha County Parcel Viewer).

   The file embeds the filtering and spatial-query engine of the app:
   the attribute predicate mask of `filter_parcels` (lines 40-55), the
   spatial proximity stage (lines 57-69), the popup-content derivation
   (lines 71-84), the truncation logic of `generate_map_html` (lines
   94-100) and of `main` (lines 263-273), and the bounds computation of
   `main` (lines 228-243, 256-260).

   Numbers are modelled as rationals.  Geometry objects and the CRS /
   buffering / intersection primitives of geopandas and shapely are
   modelled abstractly by a `GeoOps` interface; the pandas string
   matcher `Series.str.contains` (regex search, case-insensitive,
   `na=False`) is modelled for the pattern language of literal
   characters plus the metacharacter `.`. -/

namespace Waukesha

/-! ## String utilities (model of the pandas / Python string primitives) -/

/-- Lower-casing of a string, character by character (model of Python
lower-casing used by case-insensitive matching). -/
def lowerStr (s : String) : String := String.mk (s.data.map Char.toLower)

/-- Boolean test that `pat` is a prefix of `s` (on character lists). -/
def prefixOfB : List Char → List Char → Bool
  | [], _ => true
  | _ :: _, [] => false
  | a :: as, b :: bs => a = b && prefixOfB as bs

/-- Boolean test that `pat` occurs contiguously somewhere in `s`. -/
def containsSub (pat : List Char) : List Char → Bool
  | [] => prefixOfB pat []
  | c :: rest => prefixOfB pat (c :: rest) || containsSub pat rest

/-- Case-sensitive literal substring containment on strings. -/
def substr (pat s : String) : Bool := containsSub pat.data s.data

/-- Case-insensitive literal substring containment on strings (the
reading of "case-insensitive substring containment" in the spec). -/
def substr_ci (pat s : String) : Bool :=
  containsSub (lowerStr pat).data (lowerStr s).data

/-- Token of the modelled regular-expression pattern language: a literal
character or the metacharacter `.` (which matches any character). -/
inductive RTok where
  | dot : RTok
  | lit : Char → RTok
deriving DecidableEq

/-- Parse a pattern string into tokens: `.` becomes the any-character
token, every other character a literal.  This models Python `re`
patterns that use no metacharacters other than `.`. -/
def parsePat (s : String) : List RTok :=
  s.data.map (fun c => if c = '.' then RTok.dot else RTok.lit c)

/-- Does a single pattern token match a character? -/
def tokMatches : RTok → Char → Bool
  | RTok.dot, _ => true
  | RTok.lit c, d => c = d

/-- Match a token list against the front of a character list. -/
def matchHere : List RTok → List Char → Bool
  | [], _ => true
  | _ :: _, [] => false
  | t :: ts, c :: cs => tokMatches t c && matchHere ts cs

/-- Search for a match of the token list at any position (model of
`re.search`). -/
def reSearch (ts : List RTok) : List Char → Bool
  | [] => matchHere ts []
  | c :: cs => matchHere ts (c :: cs) || reSearch ts cs

/-- Model of `pandas.Series.str.contains(pat, case=False, na=False)` on
a non-null value: the pattern is a regular expression (pandas default
`regex=True`), searched case-insensitively.  Faithful for patterns in
the modelled language (literal characters and `.`). -/
def str_contains_ci (pat s : String) : Bool :=
  reSearch (parsePat (lowerStr pat)) (lowerStr s).data

/-! ## Geometry interface and data model -/

/-- Abstract interface to the geometry layer (geopandas / shapely /
pyproj), the external library the source calls: CRS reprojection
(`to_crs`), point construction in geographic WGS84 (`Point(lon, lat)`
with `crs="EPSG:4326"`), circular buffering by a distance in the units
of the current CRS, boundary-inclusive intersection testing
(`intersects`), and the axis-aligned bounding box of one geometry
(as `(minx, miny, maxx, maxy)`). -/
structure GeoOps (G : Type) where
  toCrs : G → String → G
  mkPointWgs84 : ℚ → ℚ → G
  buffer : G → ℚ → G
  intersects : G → G → Bool
  boundsOf : G → ℚ × ℚ × ℚ × ℚ

/-- One parcel record, with the attribute columns the app keeps
(`load_parcels`, line 20).  Textual columns are nullable (`Option`);
acreage and market value are numeric (spec §3: non-null). -/
structure Parcel (G : Type) where
  OWNERNME1 : Option String
  PLACENAME : Option String
  ZIPCODE : Option String
  SCHOOLDIST : Option String
  ESTFMKVALU : ℚ
  PSTLADRESS : Option String
  SITEADRESS : Option String
  GISACRES : ℚ
  URL : Option String
  geometry : G
deriving DecidableEq

/-- A parcel record after the filter stage added the `popup_content`
column (lines 71-84). -/
structure ParcelOut (G : Type) extends Parcel G where
  popup_content : String
deriving DecidableEq

/-- The arguments of `filter_parcels` (line 40) bundled as one value
object: the spec's `FilterCriteria`. -/
structure Criteria where
  acres_min : ℚ
  acres_max : ℚ
  owner_name : String
  placenames : List String
  zipcodes : List String
  schooldists : List String
  estfmkvalu_min : Option ℚ
  estfmkvalu_max : Option ℚ
  lat : Option ℚ
  lon : Option ℚ
  distance_miles : Option ℚ
deriving DecidableEq

/-- Model of `Series.isin` under a non-null membership list: a null
value is in no list, a non-null value is tested by membership. -/
def isin (v : Option String) (l : List String) : Bool :=
  match v with
  | some s => l.contains s
  | none => false

/-- The owner-name clause (line 45):
`filtered['OWNERNME1'].str.contains(owner_name, case=False, na=False)`;
a null owner gives `False` (`na=False`). -/
def ownerContains (pat : String) : Option String → Bool
  | some o => str_contains_ci pat o
  | none => false

/-- The boolean mask of lines 43-53, one record at a time: conjunction
of the acreage between-test (always active, inclusive on both ends), and
the owner / place-name / zip / school-district / market-value clauses,
each guarded exactly as in the source (`if owner_name:`,
`if placenames:`, ..., `if estfmkvalu_min is not None and
estfmkvalu_max is not None:`). -/
def parcelMask {G : Type} (c : Criteria) (p : Parcel G) : Bool :=
  (decide (c.acres_min ≤ p.GISACRES ∧ p.GISACRES ≤ c.acres_max))
  && (if c.owner_name = "" then true else ownerContains c.owner_name p.OWNERNME1)
  && (if c.placenames = [] then true else isin p.PLACENAME c.placenames)
  && (if c.zipcodes = [] then true else isin p.ZIPCODE c.zipcodes)
  && (if c.schooldists = [] then true else isin p.SCHOOLDIST c.schooldists)
  && (match c.estfmkvalu_min, c.estfmkvalu_max with
      | some lo, some hi => decide (lo ≤ p.ESTFMKVALU ∧ p.ESTFMKVALU ≤ hi)
      | _, _ => true)

/-- The attribute stage of `filter_parcels` (lines 43-55):
`filtered = filtered[mask]`, which keeps rows in source order. -/
def predicate_filter {G : Type} (c : Criteria) (gdf : List (Parcel G)) :
    List (Parcel G) :=
  gdf.filter (parcelMask c)

/-- The fixed planar CRS of the proximity stage (line 63). -/
def utm_crs : String := "EPSG:32616"

/-- One mile in meters as used at line 66 (`distance_miles * 1609.34`). -/
def mileInMeters : ℚ := 160934 / 100

/-- Reproject one record's geometry (a row of `filtered.to_crs(...)`);
a new record is produced, the original is untouched. -/
def projTo {G : Type} (ops : GeoOps G) (crs : String) (p : Parcel G) :
    Parcel G :=
  { p with geometry := ops.toCrs p.geometry crs }

/-- How a possibly-null owner name renders inside the Python f-string:
a pandas missing value prints as `nan`. -/
def showOwner (o : Option String) : String :=
  match o with
  | some s => s
  | none => "nan"

/-- The popup-content string derived for one surviving record
(lines 71-84).  The URL branch follows `pd.notnull(row['URL'])`. -/
def popup_content_of {G : Type} (p : Parcel G) : String :=
  match p.URL with
  | some url =>
      "Owner: " ++ showOwner p.OWNERNME1 ++ "<br>"
        ++ "Acres: " ++ toString p.GISACRES ++ "<br>"
        ++ "Market Value: " ++ toString p.ESTFMKVALU ++ "<br>"
        ++ "Tax Site: <a href=\x27" ++ url
        ++ "\x27 target=\x27_blank\x27>Link to Tax Site</a>"
  | none =>
      "Owner: " ++ showOwner p.OWNERNME1 ++ "<br>"
        ++ "Acres: " ++ toString p.GISACRES ++ "<br>"
        ++ "Market Value: " ++ toString p.ESTFMKVALU ++ "<br>"
        ++ "Tax Site: No URL available"

/-- Attach the derived popup column to one record (line 71). -/
def addPopup {G : Type} (p : Parcel G) : ParcelOut G :=
  { toParcel := p, popup_content := popup_content_of p }

/-- The value `filter_parcels` hands back to its caller: the resulting
records, plus the error message shown via `st.error` on the
out-of-region early return (lines 58-60), if any. -/
structure FilterOutcome (G : Type) where
  records : List (ParcelOut G)
  errorMsg : Option String
deriving DecidableEq

/-- The out-of-region message of line 59. -/
def outOfRangeMsg : String :=
  "Coordinates out of valid range for Waukesha County."

/-- Model of `filter_parcels` (lines 40-85).  The attribute mask is
applied first; the proximity stage runs only when `lat`, `lon` and
`distance_miles` are all supplied and all nonzero (Python truthiness of
`if lat and lon and distance_miles:`, line 57); inside it, the region
check of line 58 either rejects with the error message and an empty
frame, or the point and the subset are reprojected to `EPSG:32616`, the
buffer of `distance_miles * 1609.34` meters is built, intersecting rows
are kept and reprojected back to `EPSG:4326`.  Finally the
`popup_content` column is derived for every surviving row. -/
def filter_parcels {G : Type} (ops : GeoOps G) (gdf : List (Parcel G))
    (c : Criteria) : FilterOutcome G :=
  let filtered := predicate_filter c gdf
  match c.lat, c.lon, c.distance_miles with
  | some la, some lo, some dm =>
    if la ≠ 0 ∧ lo ≠ 0 ∧ dm ≠ 0 then
      if 42 ≤ la ∧ la ≤ 44 ∧ -89 ≤ lo ∧ lo ≤ -87 then
        let point_utm := ops.toCrs (ops.mkPointWgs84 lo la) utm_crs
        let distance_meters := dm * mileInMeters
        let buffered_point := ops.buffer point_utm distance_meters
        let filtered_utm := filtered.map (projTo ops utm_crs)
        let kept := filtered_utm.filter
          (fun p => ops.intersects p.geometry buffered_point)
        let back := kept.map (projTo ops "EPSG:4326")
        { records := back.map addPopup, errorMsg := none }
      else
        { records := [], errorMsg := some outOfRangeMsg }
    else
      { records := filtered.map addPopup, errorMsg := none }
  | _, _, _ => { records := filtered.map addPopup, errorMsg := none }

/-! ## Truncation and bounds policies -/

/-- The truncation logic of `generate_map_html` (lines 94-100): an
empty frame adds no features; more than 1000 rows render only the first
1000 and set the truncation flag; otherwise all rows render. -/
def generate_map_rendered {α : Type} (l : List α) : List α × Bool :=
  if l.isEmpty then ([], false)
  else if 1000 < l.length then (l.take 1000, true)
  else (l, false)

/-- The parcel count reported in the sidebar (line 264:
`Showing {len(...)} parcels`), always the full filtered count. -/
def reported_count {α : Type} (l : List α) : Nat := l.length

/-- The rows shown in the data table (lines 269-273): first 1000 when
more than 1000 match, all rows otherwise. -/
def table_rows {α : Type} (l : List α) : List α :=
  if 1000 < l.length then l.take 1000 else l

/-- Whether the table-truncation warning of line 271 is shown. -/
def table_truncated {α : Type} (l : List α) : Bool :=
  1000 < l.length

/-- Merge of two axis-aligned boxes `(minx, miny, maxx, maxy)`:
componentwise min on the lower corner, max on the upper corner. -/
def bbox_merge (a b : ℚ × ℚ × ℚ × ℚ) : ℚ × ℚ × ℚ × ℚ :=
  (min a.1 b.1, min a.2.1 b.2.1, max a.2.2.1 b.2.2.1, max a.2.2.2 b.2.2.2)

/-- Box `a` contains box `b` (both as `(minx, miny, maxx, maxy)`). -/
def bboxContains (a b : ℚ × ℚ × ℚ × ℚ) : Prop :=
  a.1 ≤ b.1 ∧ a.2.1 ≤ b.2.1 ∧ b.2.2.1 ≤ a.2.2.1 ∧ b.2.2.2 ≤ a.2.2.2

/-- Model of `filtered_gdf.total_bounds` (line 230): the merge of the
per-geometry bounding boxes; `none` on an empty frame (where `main`
never computes it). -/
def total_bounds {G : Type} (ops : GeoOps G) :
    List (ParcelOut G) → Option (ℚ × ℚ × ℚ × ℚ)
  | [] => none
  | p :: ps =>
      some (ps.foldl (fun acc q => bbox_merge acc (ops.boundsOf q.geometry))
        (ops.boundsOf p.geometry))

/-- The padded display bounds of `main` (lines 230-237): the total
bounds expanded by `buffer_factor = 0.1` of the width on the left and
right and of the height on the top and bottom, stored as
`[[south, west], [north, east]]`; `none` when the subset is empty
(line 241). -/
def compute_map_bounds {G : Type} (ops : GeoOps G) (l : List (ParcelOut G)) :
    Option ((ℚ × ℚ) × (ℚ × ℚ)) :=
  match total_bounds ops l with
  | none => none
  | some (minx, miny, maxx, maxy) =>
      let width := maxx - minx
      let height := maxy - miny
      some ((miny - height * (1 / 10), minx - width * (1 / 10)),
            (maxy + height * (1 / 10), maxx + width * (1 / 10)))

/-- The map view the app displays: either a map fitted to computed
bounds (line 92) or the fixed default view of lines 89 / 257
(center `[43.0111125, -88.2275077]`, zoom 10). -/
inductive MapView where
  | fitBounds : (ℚ × ℚ) × (ℚ × ℚ) → MapView
  | defaultView : MapView
deriving DecidableEq

/-- The view `main` ends up displaying for a given filter result
(lines 226-260): a fresh nonempty result is rendered with
`fit_bounds(map_bounds)`; an empty or absent result falls back to the
fixed default map. -/
def displayed_view {G : Type} (ops : GeoOps G)
    (filtered : Option (List (ParcelOut G))) : MapView :=
  match filtered with
  | none => MapView.defaultView
  | some l =>
      match compute_map_bounds ops l with
      | some b => MapView.fitBounds b
      | none => MapView.defaultView

/-! ## Heap model of `filter_parcels` (for the no-mutation claim)

A small object store makes the aliasing structure of the Python code
explicit: `gdf.copy()` (line 41) allocates, each rebinding of
`filtered` (`filtered[mask]`, `to_crs`) allocates a fresh frame, and
the single in-place operation, the column assignment
`filtered['popup_content'] = ...` (line 71), writes to the object
`filtered` currently refers to — never to the caller's object. -/

/-- A dataframe object in the store: before or after the
`popup_content` column exists. -/
inductive Obj (G : Type) where
  | raw : List (Parcel G) → Obj G
  | withPopup : List (ParcelOut G) → Obj G
deriving DecidableEq

/-- The object store: objects addressed by their list index. -/
abbrev Heap (G : Type) : Type := List (Obj G)

/-- Allocate a fresh object, returning the new store and the fresh
reference. -/
def heapAlloc {G : Type} (h : Heap G) (o : Obj G) : Heap G × Nat :=
  (h ++ [o], h.length)

/-- Read the raw record list of an object (empty for a dangling
reference or a frame that already has the popup column). -/
def heapReadRaw {G : Type} (h : Heap G) (r : Nat) : List (Parcel G) :=
  match h[r]? with
  | some (Obj.raw l) => l
  | _ => []

/-- Heap-level model of `filter_parcels` (lines 40-85), making object
identity explicit.  Returns the final store, the reference to the
returned frame, and the error message, if any.  Line 41 copies the
caller's frame; lines 55, 64-69 rebind `filtered` to freshly allocated
frames; line 71 assigns the `popup_content` column in place on the
frame `filtered` refers to at that moment. -/
def filter_parcels_heap {G : Type} (ops : GeoOps G) (h0 : Heap G)
    (gdfRef : Nat) (c : Criteria) : Heap G × Nat × Option String :=
  let gdf := heapReadRaw h0 gdfRef
  let a1 := heapAlloc h0 (Obj.raw gdf)
  let filtered := predicate_filter c gdf
  let a2 := heapAlloc a1.1 (Obj.raw filtered)
  match c.lat, c.lon, c.distance_miles with
  | some la, some lo, some dm =>
    if la ≠ 0 ∧ lo ≠ 0 ∧ dm ≠ 0 then
      if 42 ≤ la ∧ la ≤ 44 ∧ -89 ≤ lo ∧ lo ≤ -87 then
        let point_utm := ops.toCrs (ops.mkPointWgs84 lo la) utm_crs
        let buffered_point := ops.buffer point_utm (dm * mileInMeters)
        let filtered_utm := filtered.map (projTo ops utm_crs)
        let a3 := heapAlloc a2.1 (Obj.raw filtered_utm)
        let kept := filtered_utm.filter
          (fun p => ops.intersects p.geometry buffered_point)
        let a4 := heapAlloc a3.1 (Obj.raw kept)
        let back := kept.map (projTo ops "EPSG:4326")
        let a5 := heapAlloc a4.1 (Obj.raw back)
        let h6 := a5.1.set a5.2 (Obj.withPopup (back.map addPopup))
        (h6, a5.2, none)
      else
        let a3 := heapAlloc a2.1 (Obj.raw [])
        (a3.1, a3.2, some outOfRangeMsg)
    else
      let h3 := a2.1.set a2.2 (Obj.withPopup (filtered.map addPopup))
      (h3, a2.2, none)
  | _, _, _ =>
      let h3 := a2.1.set a2.2 (Obj.withPopup (filtered.map addPopup))
      (h3, a2.2, none)

/-! ## Spec-side definitions (stated from the specification's words) -/

/-- The Predicate Filter's record predicate as claim C1 states it: the
conjunction of the active clauses — acreage in `[acres_min, acres_max]`
inclusive on both ends; market value in `[value_min, value_max]`
inclusive on both ends when both bounds are present; each non-empty set
filter as a membership test; the owner clause (whose own semantics is
the subject of claim C6) when a non-empty owner query is given.  Absent
or empty optional predicates impose no restriction. -/
def ClaimPredC1 {G : Type} (c : Criteria) (p : Parcel G) : Prop :=
  (c.acres_min ≤ p.GISACRES ∧ p.GISACRES ≤ c.acres_max)
  ∧ (c.owner_name ≠ "" → ownerContains c.owner_name p.OWNERNME1 = true)
  ∧ (c.placenames ≠ [] → ∃ s ∈ c.placenames, p.PLACENAME = some s)
  ∧ (c.zipcodes ≠ [] → ∃ s ∈ c.zipcodes, p.ZIPCODE = some s)
  ∧ (c.schooldists ≠ [] → ∃ s ∈ c.schooldists, p.SCHOOLDIST = some s)
  ∧ (∀ lo ∈ c.estfmkvalu_min, ∀ hi ∈ c.estfmkvalu_max,
      lo ≤ p.ESTFMKVALU ∧ p.ESTFMKVALU ≤ hi)

instance {G : Type} (c : Criteria) (p : Parcel G) :
    Decidable (ClaimPredC1 c p) := by
  unfold ClaimPredC1; infer_instance

/-- The Spatial Proximity Filter as §4.4 of the spec describes it:
reproject the query point and the candidate subset into the fixed
planar CRS, build the circular buffer of radius
`radius_miles * 1609.34` meters, retain the candidates whose geometry
intersects it, and reproject the retained subset back to WGS84. -/
def spatial_spec {G : Type} (ops : GeoOps G) (subset : List (Parcel G))
    (la lo dm : ℚ) : List (Parcel G) :=
  let qpoint := ops.toCrs (ops.mkPointWgs84 lo la) utm_crs
  let disk := ops.buffer qpoint (dm * mileInMeters)
  ((subset.map (projTo ops utm_crs)).filter
      (fun p => ops.intersects p.geometry disk)).map (projTo ops "EPSG:4326")

/-- Criteria `c2` is `c1` plus exactly one additional active
restriction (claim C7): an owner query, a place-name set, a zip set, a
school-district set, a market-value range, or a proximity query, added
to a criteria value in which that clause was absent. -/
inductive AddsRestriction : Criteria → Criteria → Prop where
  | owner (c : Criteria) (w : String) (h : c.owner_name = "") :
      AddsRestriction c { c with owner_name := w }
  | place (c : Criteria) (l : List String) (h : c.placenames = []) :
      AddsRestriction c { c with placenames := l }
  | zip (c : Criteria) (l : List String) (h : c.zipcodes = []) :
      AddsRestriction c { c with zipcodes := l }
  | school (c : Criteria) (l : List String) (h : c.schooldists = []) :
      AddsRestriction c { c with schooldists := l }
  | value (c : Criteria) (lo hi : ℚ)
      (h : c.estfmkvalu_min = none ∨ c.estfmkvalu_max = none) :
      AddsRestriction c
        { c with estfmkvalu_min := some lo, estfmkvalu_max := some hi }
  | proximity (c : Criteria) (la lo dm : ℚ)
      (h : c.lat = none ∧ c.lon = none ∧ c.distance_miles = none) :
      AddsRestriction c
        { c with lat := some la, lon := some lo, distance_miles := some dm }

/-! ## A concrete geometry instance (for evaluating the model) -/

/-- Concrete point geometries for witnesses: a geometry is a rational
point; reprojection is the identity, a buffer is its center point, two
geometries intersect when equal, and the bounding box of a point is the
degenerate box at the point. -/
def trivOps : GeoOps (ℚ × ℚ) where
  toCrs := fun g _ => g
  mkPointWgs84 := fun x y => (x, y)
  buffer := fun g _ => g
  intersects := fun a b => decide (a = b)
  boundsOf := fun g => (g.1, g.2, g.1, g.2)

/-- A concrete parcel used by witnesses and counterexamples. -/
def testParcel : Parcel (ℚ × ℚ) :=
  { OWNERNME1 := some "SMITH JOHN"
    PLACENAME := some "WAUKESHA"
    ZIPCODE := some "53186"
    SCHOOLDIST := some "WAUKESHA"
    ESTFMKVALU := 250000
    PSTLADRESS := some "W100 MAIN ST"
    SITEADRESS := some "W100 MAIN ST"
    GISACRES := 5
    URL := some "https://tax.example/1"
    geometry := (-88, 43) }

/-- Criteria imposing no restriction at all (full acreage range, no
optional clause). -/
def openCriteria : Criteria :=
  { acres_min := 0
    acres_max := 1000
    owner_name := ""
    placenames := []
    zipcodes := []
    schooldists := []
    estfmkvalu_min := some 0
    estfmkvalu_max := some 1000000000
    lat := none
    lon := none
    distance_miles := none }

/-! ## Helper lemmas -/

/-- Boolean prefix test agrees with the existence of a suffix. -/
theorem prefixOfB_iff (pat : List Char) :
    ∀ s, prefixOfB pat s = true ↔ ∃ suf, s = pat ++ suf := by
  induction pat with
  | nil =>
      intro s
      simp [prefixOfB]
  | cons a as ih =>
      intro s
      cases s with
      | nil => simp [prefixOfB]
      | cons b bs =>
          simp only [prefixOfB, Bool.and_eq_true, decide_eq_true_eq, ih bs,
            List.cons_append, List.cons.injEq]
          constructor
          · rintro ⟨hab, suf, hsuf⟩
            exact ⟨suf, hab.symm, hsuf⟩
          · rintro ⟨suf, hba, hsuf⟩
            exact ⟨hba.symm, suf, hsuf⟩

/-- Boolean substring test agrees with the existence of a decomposition
`s = pre ++ pat ++ suf`. -/
theorem containsSub_iff (pat : List Char) :
    ∀ s, containsSub pat s = true ↔ ∃ pre suf, s = pre ++ pat ++ suf := by
  intro s
  induction s with
  | nil =>
      simp only [containsSub, prefixOfB_iff]
      constructor
      · rintro ⟨suf, hsuf⟩
        exact ⟨[], suf, by simpa using hsuf⟩
      · rintro ⟨pre, suf, hs⟩
        have h2 : pre = [] ∧ pat = [] ∧ suf = [] := by
          simpa using hs.symm
        exact ⟨[], by simp [h2.2.1]⟩
  | cons c rest ih =>
      simp only [containsSub, Bool.or_eq_true, prefixOfB_iff, ih]
      constructor
      · rintro (⟨suf, hsuf⟩ | ⟨pre, suf, hs⟩)
        · exact ⟨[], suf, by simpa using hsuf⟩
        · exact ⟨c :: pre, suf, by simp [hs]⟩
      · rintro ⟨pre, suf, hs⟩
        cases pre with
        | nil => exact Or.inl ⟨suf, by simpa using hs⟩
        | cons d pre =>
            simp only [List.cons_append] at hs
            rcases List.cons_eq_cons.mp hs with ⟨hcd, hrest⟩
            exact Or.inr ⟨pre, suf, hrest⟩

/-- The membership test `isin` agrees with list membership on a
non-null value and rejects a null value. -/
theorem isin_iff (v : Option String) (l : List String) :
    isin v l = true ↔ ∃ s ∈ l, v = some s := by
  cases v with
  | none => simp [isin]
  | some s =>
      simp only [isin, List.contains, List.elem_eq_mem, decide_eq_true_eq]
      constructor
      · intro h; exact ⟨s, h, rfl⟩
      · rintro ⟨t, ht, hst⟩
        cases (Option.some.injEq _ _).mp hst
        exact ht

/-- Pointwise agreement of the source mask (lines 43-53) with the
spec-side record predicate of claim C1. -/
theorem parcelMask_eq_claimPred {G : Type} (c : Criteria) (p : Parcel G) :
    parcelMask c p = decide (ClaimPredC1 c p) := by
  rw [Bool.eq_iff_iff]
  simp only [parcelMask, ClaimPredC1, Bool.and_eq_true, decide_eq_true_eq]
  constructor
  · rintro ⟨⟨⟨⟨⟨hac, how⟩, hpl⟩, hzp⟩, hsc⟩, hval⟩
    refine ⟨hac, ?_, ?_, ?_, ?_, ?_⟩
    · intro hw
      rw [if_neg hw] at how
      exact how
    · intro hl
      rw [if_neg hl] at hpl
      exact (isin_iff _ _).mp hpl
    · intro hl
      rw [if_neg hl] at hzp
      exact (isin_iff _ _).mp hzp
    · intro hl
      rw [if_neg hl] at hsc
      exact (isin_iff _ _).mp hsc
    · intro lo hlo hi hhi
      rw [Option.mem_def] at hlo hhi
      rw [hlo, hhi] at hval
      exact decide_eq_true_eq.mp hval
  · rintro ⟨hac, how, hpl, hzp, hsc, hval⟩
    refine ⟨⟨⟨⟨⟨hac, ?_⟩, ?_⟩, ?_⟩, ?_⟩, ?_⟩
    · by_cases hw : c.owner_name = ""
      · rw [if_pos hw]
      · rw [if_neg hw]; exact how hw
    · by_cases hl : c.placenames = []
      · rw [if_pos hl]
      · rw [if_neg hl]; exact (isin_iff _ _).mpr (hpl hl)
    · by_cases hl : c.zipcodes = []
      · rw [if_pos hl]
      · rw [if_neg hl]; exact (isin_iff _ _).mpr (hzp hl)
    · by_cases hl : c.schooldists = []
      · rw [if_pos hl]
      · rw [if_neg hl]; exact (isin_iff _ _).mpr (hsc hl)
    · cases hmin : c.estfmkvalu_min with
      | none => rfl
      | some lo =>
          cases hmax : c.estfmkvalu_max with
          | none => rfl
          | some hi =>
              exact decide_eq_true_eq.mpr
                (hval lo (Option.mem_def.mpr hmin) hi (Option.mem_def.mpr hmax))

/-! ## Claim theorems -/

/-- C1: for every dataset and criteria, the Predicate Filter returns
exactly the records satisfying the conjunction of the active clauses
(acreage and market value ranges inclusive on both ends, each
non-empty set filter as a membership test, absent or empty optional
predicates imposing no restriction), in the same relative order as the
source collection. -/
theorem predicate_filter_correct {G : Type} (c : Criteria)
    (gdf : List (Parcel G)) :
    predicate_filter c gdf = gdf.filter (fun p => decide (ClaimPredC1 c p))
      ∧ List.Sublist (predicate_filter c gdf) gdf := by
  constructor
  · exact List.filter_congr (fun p _ => parcelMask_eq_claimPred c p)
  · exact List.filter_sublist gdf

/-- A token list of literal characters matches at the front exactly
when those characters are a prefix. -/
theorem matchHere_lit (cl : List Char) :
    ∀ s, matchHere (cl.map RTok.lit) s = prefixOfB cl s := by
  induction cl with
  | nil => intro s; rfl
  | cons a as ih =>
      intro s
      cases s with
      | nil => rfl
      | cons b bs =>
          simp only [List.map_cons, matchHere, prefixOfB, tokMatches, ih bs]

/-- Regex search of a pure-literal pattern is substring containment. -/
theorem reSearch_lit (cl : List Char) :
    ∀ s, reSearch (cl.map RTok.lit) s = containsSub cl s := by
  intro s
  induction s with
  | nil => simp only [reSearch, containsSub, matchHere_lit]
  | cons c cs ih => simp only [reSearch, containsSub, matchHere_lit, ih]

/-- A pattern without the `.` metacharacter parses to literal tokens
only. -/
theorem parsePat_no_dot (w : String)
    (h : w.data.all (fun ch => decide (ch ≠ '.')) = true) :
    parsePat w = w.data.map RTok.lit := by
  unfold parsePat
  apply List.map_congr_left
  intro c hc
  have hdot : c ≠ '.' := by
    have := List.all_eq_true.mp h c hc
    simpa using this
  simp [hdot]

/-- On patterns without the `.` metacharacter, the pandas regex search
coincides with case-insensitive substring containment. -/
theorem str_contains_ci_eq_substr_ci (w o : String)
    (h : (lowerStr w).data.all (fun ch => decide (ch ≠ '.')) = true) :
    str_contains_ci w o = substr_ci w o := by
  unfold str_contains_ci substr_ci
  rw [parsePat_no_dot _ h, reSearch_lit]

/-- Bool reshuffling used to factor the owner clause out of the mask. -/
theorem bool_shuffle :
    ∀ a x b c d e : Bool,
      (a && x && b && c && d && e) = (a && true && b && c && d && e && x) := by
  decide

/-- A parcel whose owner name is `AB`, used to exhibit the regex
behaviour of the owner clause. -/
def parcelAB : Parcel (ℚ × ℚ) :=
  { testParcel with OWNERNME1 := some "AB" }

/-- Criteria whose only active optional clause is the owner query `.`
(a regex metacharacter). -/
def ownerDotCriteria : Criteria :=
  { openCriteria with owner_name := "." }

/-- C6 counterexample: with owner query `.`, the record with owner name
`AB` is retained by the code (pandas `str.contains` treats the query as
a regular expression), although `.` is not a substring of `AB` under
case-insensitive comparison — so the owner clause does not retain
exactly the records containing the query as a substring. -/
theorem owner_regex_counterexample :
    (filter_parcels trivOps [parcelAB] ownerDotCriteria).records
        = [addPopup parcelAB]
      ∧ parcelAB.OWNERNME1 = some "AB"
      ∧ substr_ci "." "AB" = false := by
  refine ⟨by decide, rfl, by decide⟩

/-- C6 amended: for every dataset and every non-empty owner query that
uses no regex metacharacter (no `.` in the modelled pattern language),
the filter retains exactly the records whose owner name contains the
query as a substring under case-insensitive comparison, with a record
with a null owner name excluded; in general the query is interpreted as
a regular expression, not a literal substring. -/
theorem owner_clause_amended {G : Type} (c : Criteria)
    (h1 : ¬ c.owner_name = "")
    (h2 : (lowerStr c.owner_name).data.all (fun ch => decide (ch ≠ '.')) = true)
    (gdf : List (Parcel G)) :
    gdf.filter (parcelMask c)
      = gdf.filter (fun p =>
          parcelMask { c with owner_name := "" } p
            && (match p.OWNERNME1 with
                | some o => substr_ci c.owner_name o
                | none => false)) := by
  apply List.filter_congr
  intro p _
  have hsub : ownerContains c.owner_name p.OWNERNME1
      = (match p.OWNERNME1 with
         | some o => substr_ci c.owner_name o
         | none => false) := by
    cases p.OWNERNME1 with
    | none => rfl
    | some o => exact str_contains_ci_eq_substr_ci c.owner_name o h2
  show parcelMask c p = _
  simp only [parcelMask, if_neg h1, hsub]
  exact bool_shuffle _ _ _ _ _ _

/-- C6 amended, witness: a concrete metacharacter-free owner query on a
concrete dataset. -/
theorem owner_clause_amended_witness :
    (¬ ({ openCriteria with owner_name := "smith" } : Criteria).owner_name = "")
    ∧ (lowerStr ({ openCriteria with owner_name := "smith" } : Criteria).owner_name).data.all
        (fun ch => decide (ch ≠ '.')) = true
    ∧ [testParcel, parcelAB].filter
          (parcelMask { openCriteria with owner_name := "smith" })
        = [testParcel, parcelAB].filter (fun p =>
            parcelMask { { openCriteria with owner_name := "smith" } with
                owner_name := "" } p
              && (match p.OWNERNME1 with
                  | some o =>
                      substr_ci ({ openCriteria with
                        owner_name := "smith" } : Criteria).owner_name o
                  | none => false)) :=
  ⟨by decide, by decide,
    owner_clause_amended { openCriteria with owner_name := "smith" }
      (by decide) (by decide) [testParcel, parcelAB]⟩

/-! ## Branch equations of `filter_parcels` -/

/-- When at least one proximity parameter is absent, only the attribute
stage and the popup derivation run. -/
theorem filter_parcels_no_proximity {G : Type} (ops : GeoOps G)
    (gdf : List (Parcel G)) (c : Criteria)
    (h : c.lat = none ∨ c.lon = none ∨ c.distance_miles = none) :
    filter_parcels ops gdf c
      = { records := (predicate_filter c gdf).map addPopup,
          errorMsg := none } := by
  unfold filter_parcels
  rcases hla : c.lat with _ | la <;> rcases hlo : c.lon with _ | lo <;>
    rcases hdm : c.distance_miles with _ | dm <;> simp_all

/-- When all three proximity parameters are supplied but the Python
condition `lat and lon and distance_miles` is falsy (one of them is
zero), the proximity stage is skipped entirely. -/
theorem filter_parcels_zero {G : Type} (ops : GeoOps G)
    (gdf : List (Parcel G)) (c : Criteria) (la lo dm : ℚ)
    (hla : c.lat = some la) (hlo : c.lon = some lo)
    (hdm : c.distance_miles = some dm)
    (hz : ¬ (la ≠ 0 ∧ lo ≠ 0 ∧ dm ≠ 0)) :
    filter_parcels ops gdf c
      = { records := (predicate_filter c gdf).map addPopup,
          errorMsg := none } := by
  unfold filter_parcels
  rw [hla, hlo, hdm]
  simp only [if_neg hz]

/-- When the proximity parameters are truthy but the point fails the
region check of line 58, the error message is emitted and an empty
frame returned. -/
theorem filter_parcels_out_of_region {G : Type} (ops : GeoOps G)
    (gdf : List (Parcel G)) (c : Criteria) (la lo dm : ℚ)
    (hla : c.lat = some la) (hlo : c.lon = some lo)
    (hdm : c.distance_miles = some dm)
    (hnz : la ≠ 0 ∧ lo ≠ 0 ∧ dm ≠ 0)
    (hreg : ¬ (42 ≤ la ∧ la ≤ 44 ∧ -89 ≤ lo ∧ lo ≤ -87)) :
    filter_parcels ops gdf c
      = { records := [], errorMsg := some outOfRangeMsg } := by
  unfold filter_parcels
  rw [hla, hlo, hdm]
  simp only [if_pos hnz, if_neg hreg]

/-- When the proximity parameters are truthy and the point passes the
region check, the spatial stage of lines 61-69 runs on the
attribute-filtered subset. -/
theorem filter_parcels_spatial {G : Type} (ops : GeoOps G)
    (gdf : List (Parcel G)) (c : Criteria) (la lo dm : ℚ)
    (hla : c.lat = some la) (hlo : c.lon = some lo)
    (hdm : c.distance_miles = some dm)
    (hnz : la ≠ 0 ∧ lo ≠ 0 ∧ dm ≠ 0)
    (hreg : 42 ≤ la ∧ la ≤ 44 ∧ -89 ≤ lo ∧ lo ≤ -87) :
    filter_parcels ops gdf c
      = { records :=
            (spatial_spec ops (predicate_filter c gdf) la lo dm).map addPopup,
          errorMsg := none } := by
  unfold filter_parcels
  rw [hla, hlo, hdm]
  simp only [if_pos hnz, if_pos hreg, spatial_spec]

/-- Every record `filter_parcels` returns is some parcel with the
popup column attached. -/
theorem mem_records_addPopup {G : Type} (ops : GeoOps G)
    (gdf : List (Parcel G)) (c : Criteria) :
    ∀ q ∈ (filter_parcels ops gdf c).records,
      ∃ p : Parcel G, q = addPopup p := by
  intro q hq
  rcases hla : c.lat with _ | la
  · rw [filter_parcels_no_proximity ops gdf c (Or.inl hla)] at hq
    rcases List.mem_map.mp hq with ⟨p, _, hp⟩
    exact ⟨p, hp.symm⟩
  · rcases hlo : c.lon with _ | lo
    · rw [filter_parcels_no_proximity ops gdf c (Or.inr (Or.inl hlo))] at hq
      rcases List.mem_map.mp hq with ⟨p, _, hp⟩
      exact ⟨p, hp.symm⟩
    · rcases hdm : c.distance_miles with _ | dm
      · rw [filter_parcels_no_proximity ops gdf c (Or.inr (Or.inr hdm))] at hq
        rcases List.mem_map.mp hq with ⟨p, _, hp⟩
        exact ⟨p, hp.symm⟩
      · by_cases hnz : la ≠ 0 ∧ lo ≠ 0 ∧ dm ≠ 0
        · by_cases hreg : 42 ≤ la ∧ la ≤ 44 ∧ -89 ≤ lo ∧ lo ≤ -87
          · rw [filter_parcels_spatial ops gdf c la lo dm hla hlo hdm hnz hreg]
              at hq
            rcases List.mem_map.mp hq with ⟨p, _, hp⟩
            exact ⟨p, hp.symm⟩
          · rw [filter_parcels_out_of_region ops gdf c la lo dm hla hlo hdm
              hnz hreg] at hq
            simp at hq
        · rw [filter_parcels_zero ops gdf c la lo dm hla hlo hdm hnz] at hq
          rcases List.mem_map.mp hq with ⟨p, _, hp⟩
          exact ⟨p, hp.symm⟩

/-- Substring containment from an explicit decomposition of the
character data. -/
theorem substr_of_data (pat s : String) (pre suf : List Char)
    (h : s.data = pre ++ (pat.data ++ suf)) : substr pat s = true := by
  unfold substr
  exact (containsSub_iff _ _).mpr ⟨pre, suf, by rw [h, List.append_assoc]⟩

/-- The popup string of every record embeds the owner, the acreage and
the market value; it embeds the full anchor link when the URL is
present, and the `No URL available` marker when it is null. -/
theorem popup_marks {G : Type} (p : Parcel G) :
    substr ("Owner: " ++ showOwner p.OWNERNME1) (popup_content_of p) = true
    ∧ substr ("Acres: " ++ toString p.GISACRES) (popup_content_of p) = true
    ∧ substr ("Market Value: " ++ toString p.ESTFMKVALU)
        (popup_content_of p) = true
    ∧ (∀ u, p.URL = some u →
        substr ("<a href=\x27" ++ u
            ++ "\x27 target=\x27_blank\x27>Link to Tax Site</a>")
          (popup_content_of p) = true)
    ∧ (p.URL = none →
        substr "No URL available" (popup_content_of p) = true) := by
  have hanchor : ("Tax Site: <a href=\x27" : String)
      = "Tax Site: " ++ "<a href=\x27" := rfl
  have hmarker : ("Tax Site: No URL available" : String)
      = "Tax Site: " ++ "No URL available" := rfl
  cases hurl : p.URL with
  | some u =>
      refine ⟨?_, ?_, ?_, ?_, ?_⟩
      · refine substr_of_data _ _ []
          (("<br>" ++ "Acres: " ++ toString p.GISACRES ++ "<br>"
            ++ "Market Value: " ++ toString p.ESTFMKVALU ++ "<br>"
            ++ "Tax Site: <a href=\x27" ++ u
            ++ "\x27 target=\x27_blank\x27>Link to Tax Site</a>").data) ?_
        simp [popup_content_of, hurl, List.append_assoc]
      · refine substr_of_data _ _
          (("Owner: " ++ showOwner p.OWNERNME1 ++ "<br>").data)
          (("<br>" ++ "Market Value: " ++ toString p.ESTFMKVALU ++ "<br>"
            ++ "Tax Site: <a href=\x27" ++ u
            ++ "\x27 target=\x27_blank\x27>Link to Tax Site</a>").data) ?_
        simp [popup_content_of, hurl, List.append_assoc]
      · refine substr_of_data _ _
          (("Owner: " ++ showOwner p.OWNERNME1 ++ "<br>" ++ "Acres: "
            ++ toString p.GISACRES ++ "<br>").data)
          (("<br>" ++ "Tax Site: <a href=\x27" ++ u
            ++ "\x27 target=\x27_blank\x27>Link to Tax Site</a>").data) ?_
        simp [popup_content_of, hurl, List.append_assoc]
      · intro v hv
        rcases Option.some.inj hv with rfl
        refine substr_of_data _ _
          (("Owner: " ++ showOwner p.OWNERNME1 ++ "<br>" ++ "Acres: "
            ++ toString p.GISACRES ++ "<br>" ++ "Market Value: "
            ++ toString p.ESTFMKVALU ++ "<br>" ++ "Tax Site: ").data)
          [] ?_
        simp [popup_content_of, hurl, hanchor, List.append_assoc]
      · intro hnone
        exact absurd hnone (by simp)
  | none =>
      refine ⟨?_, ?_, ?_, ?_, ?_⟩
      · refine substr_of_data _ _ []
          (("<br>" ++ "Acres: " ++ toString p.GISACRES ++ "<br>"
            ++ "Market Value: " ++ toString p.ESTFMKVALU ++ "<br>"
            ++ "Tax Site: No URL available").data) ?_
        simp [popup_content_of, hurl, List.append_assoc]
      · refine substr_of_data _ _
          (("Owner: " ++ showOwner p.OWNERNME1 ++ "<br>").data)
          (("<br>" ++ "Market Value: " ++ toString p.ESTFMKVALU ++ "<br>"
            ++ "Tax Site: No URL available").data) ?_
        simp [popup_content_of, hurl, List.append_assoc]
      · refine substr_of_data _ _
          (("Owner: " ++ showOwner p.OWNERNME1 ++ "<br>" ++ "Acres: "
            ++ toString p.GISACRES ++ "<br>").data)
          (("<br>" ++ "Tax Site: No URL available").data) ?_
        simp [popup_content_of, hurl, List.append_assoc]
      · intro v hv
        exact absurd hv (by simp)
      · intro _
        refine substr_of_data _ _
          (("Owner: " ++ showOwner p.OWNERNME1 ++ "<br>" ++ "Acres: "
            ++ toString p.GISACRES ++ "<br>" ++ "Market Value: "
            ++ toString p.ESTFMKVALU ++ "<br>" ++ "Tax Site: ").data)
          [] ?_
        simp [popup_content_of, hurl, hmarker, List.append_assoc]

/-- A parcel with a null reference URL, for the C8 counterexample. -/
def parcelNoUrl : Parcel (ℚ × ℚ) :=
  { testParcel with URL := none }

/-- C8 counterexample: a record with a null URL survives the filter and
its presentation string does not contain the literal
`no URL available` — the marker the code emits is `No URL available`
(capital `N`). -/
theorem url_marker_counterexample :
    (filter_parcels trivOps [parcelNoUrl] openCriteria).records
        = [addPopup parcelNoUrl]
      ∧ parcelNoUrl.URL = none
      ∧ substr "no URL available" (addPopup parcelNoUrl).popup_content = false
      ∧ substr "No URL available" (addPopup parcelNoUrl).popup_content
          = true := by
  refine ⟨by decide, rfl, by decide, by decide⟩

/-- C8 amended: every record surviving the filter carries the derived
presentation string, which embeds the owner, acreage and market value;
when the reference URL is non-null the string contains the full anchor
link, otherwise it contains the literal `No URL available` marker. -/
theorem popup_content_correct {G : Type} (ops : GeoOps G)
    (gdf : List (Parcel G)) (c : Criteria) :
    ∀ q ∈ (filter_parcels ops gdf c).records,
      q.popup_content = popup_content_of q.toParcel
      ∧ substr ("Owner: " ++ showOwner q.OWNERNME1) q.popup_content = true
      ∧ substr ("Acres: " ++ toString q.GISACRES) q.popup_content = true
      ∧ substr ("Market Value: " ++ toString q.ESTFMKVALU)
          q.popup_content = true
      ∧ (∀ u, q.URL = some u →
          substr ("<a href=\x27" ++ u
              ++ "\x27 target=\x27_blank\x27>Link to Tax Site</a>")
            q.popup_content = true)
      ∧ (q.URL = none →
          substr "No URL available" q.popup_content = true) := by
  intro q hq
  rcases mem_records_addPopup ops gdf c q hq with ⟨p, rfl⟩
  exact ⟨rfl, (popup_marks p).1, (popup_marks p).2.1, (popup_marks p).2.2.1,
    (popup_marks p).2.2.2.1, (popup_marks p).2.2.2.2⟩

/-- C8 amended, witness: the concrete record with a URL and the record
without one, run through the filter. -/
theorem popup_content_correct_witness :
    addPopup testParcel
        ∈ (filter_parcels trivOps [testParcel, parcelNoUrl]
            openCriteria).records
      ∧ ((addPopup testParcel).popup_content
            = popup_content_of (addPopup testParcel).toParcel
          ∧ substr ("Owner: " ++ showOwner (addPopup testParcel).OWNERNME1)
              (addPopup testParcel).popup_content = true
          ∧ substr ("Acres: " ++ toString (addPopup testParcel).GISACRES)
              (addPopup testParcel).popup_content = true
          ∧ substr ("Market Value: "
                ++ toString (addPopup testParcel).ESTFMKVALU)
              (addPopup testParcel).popup_content = true
          ∧ (∀ u, (addPopup testParcel).URL = some u →
              substr ("<a href=\x27" ++ u
                  ++ "\x27 target=\x27_blank\x27>Link to Tax Site</a>")
                (addPopup testParcel).popup_content = true)
          ∧ ((addPopup testParcel).URL = none →
              substr "No URL available"
                (addPopup testParcel).popup_content = true)) :=
  ⟨by decide,
    popup_content_correct trivOps [testParcel, parcelNoUrl] openCriteria
      (addPopup testParcel) (by decide)⟩

/-- Criteria whose proximity triple is supplied with an out-of-region
latitude and a zero radius. -/
def zeroRadiusCriteria : Criteria :=
  { openCriteria with
      lat := some 45, lon := some (-88), distance_miles := some 0 }

/-- C10: when lat, lon and distance_miles are all supplied but at least
one equals 0, the Python condition `lat and lon and distance_miles` is
falsy, so the proximity stage is skipped entirely: no region validation
runs, no error is signalled, and the result is the attribute-filtered
subset. -/
theorem proximity_skipped_on_zero {G : Type} (ops : GeoOps G)
    (gdf : List (Parcel G)) (c : Criteria) (la lo dm : ℚ)
    (hla : c.lat = some la) (hlo : c.lon = some lo)
    (hdm : c.distance_miles = some dm)
    (hz : la = 0 ∨ lo = 0 ∨ dm = 0) :
    filter_parcels ops gdf c
      = { records := (predicate_filter c gdf).map addPopup,
          errorMsg := none } := by
  apply filter_parcels_zero ops gdf c la lo dm hla hlo hdm
  tauto

/-- C10 witness: out-of-region latitude 45 with radius 0 — the stage
is skipped and no error is raised. -/
theorem proximity_skipped_on_zero_witness :
    zeroRadiusCriteria.lat = some 45
      ∧ zeroRadiusCriteria.lon = some (-88)
      ∧ zeroRadiusCriteria.distance_miles = some 0
      ∧ ((45 : ℚ) = 0 ∨ (-88 : ℚ) = 0 ∨ (0 : ℚ) = 0)
      ∧ filter_parcels trivOps [testParcel] zeroRadiusCriteria
          = { records :=
                (predicate_filter zeroRadiusCriteria [testParcel]).map addPopup,
              errorMsg := none } :=
  ⟨rfl, rfl, rfl, Or.inr (Or.inr rfl),
    proximity_skipped_on_zero trivOps [testParcel] zeroRadiusCriteria
      45 (-88) 0 rfl rfl rfl (Or.inr (Or.inr rfl))⟩

/-- C3 counterexample: a filter call whose proximity query has latitude
45 (outside [42, 44]) but radius 0 raises no error and returns the
attribute-filtered records — not an `OutOfRegion` error with an empty
result, contradicting the claim's universal statement. -/
theorem out_of_region_not_signalled_counterexample :
    (filter_parcels trivOps [testParcel] zeroRadiusCriteria).errorMsg = none
      ∧ (filter_parcels trivOps [testParcel] zeroRadiusCriteria).records
          = [addPopup testParcel] := by
  exact ⟨by decide, by decide⟩

/-- C3 amended: for every filter call whose proximity parameters are
all supplied and all nonzero (truthy), if the latitude is outside
[42, 44] or the longitude outside [-89, -87], the engine signals the
out-of-region validation error and returns an explicit empty result. -/
theorem out_of_region_error {G : Type} (ops : GeoOps G)
    (gdf : List (Parcel G)) (c : Criteria) (la lo dm : ℚ)
    (hla : c.lat = some la) (hlo : c.lon = some lo)
    (hdm : c.distance_miles = some dm)
    (hnz : la ≠ 0 ∧ lo ≠ 0 ∧ dm ≠ 0)
    (hout : ¬ (42 ≤ la ∧ la ≤ 44) ∨ ¬ (-89 ≤ lo ∧ lo ≤ -87)) :
    filter_parcels ops gdf c
      = { records := [], errorMsg := some outOfRangeMsg } := by
  apply filter_parcels_out_of_region ops gdf c la lo dm hla hlo hdm hnz
  tauto

/-- Criteria with a truthy proximity triple at latitude 45 (outside the
region) and radius 1. -/
def lat45Criteria : Criteria :=
  { openCriteria with
      lat := some 45, lon := some (-88), distance_miles := some 1 }

/-- C3 amended, witness: latitude 45 with radius 1 yields the error and
the empty result. -/
theorem out_of_region_error_witness :
    lat45Criteria.lat = some 45
      ∧ lat45Criteria.lon = some (-88)
      ∧ lat45Criteria.distance_miles = some 1
      ∧ ((45 : ℚ) ≠ 0 ∧ (-88 : ℚ) ≠ 0 ∧ (1 : ℚ) ≠ 0)
      ∧ (¬ (42 ≤ (45 : ℚ) ∧ (45 : ℚ) ≤ 44) ∨ ¬ (-89 ≤ (-88 : ℚ) ∧ (-88 : ℚ) ≤ -87))
      ∧ filter_parcels trivOps [testParcel] lat45Criteria
          = { records := [], errorMsg := some outOfRangeMsg } :=
  ⟨rfl, rfl, rfl, by decide, by decide,
    out_of_region_error trivOps [testParcel] lat45Criteria 45 (-88) 1
      rfl rfl rfl (by decide) (by decide)⟩

/-- A parcel whose point geometry is away from the query point of the
C2 counterexample. -/
def parcelAway : Parcel (ℚ × ℚ) :=
  { testParcel with geometry := (0, 0) }

/-- Criteria with an in-region proximity query of radius 0. -/
def inRegionZeroCriteria : Criteria :=
  { openCriteria with
      lat := some 43, lon := some (-88), distance_miles := some 0 }

/-- C2 counterexample: for the in-region proximity query
(43, -88, radius 0) the code skips the spatial pipeline (0 is falsy),
returning the attribute-filtered record unchanged, while the pipeline
the claim describes would drop the record (its geometry does not
intersect the buffer around the query point under the concrete
geometry instance). -/
theorem spatial_radius_zero_counterexample :
    (42 ≤ (43 : ℚ) ∧ (43 : ℚ) ≤ 44 ∧ -89 ≤ (-88 : ℚ) ∧ (-88 : ℚ) ≤ -87)
      ∧ (filter_parcels trivOps [parcelAway] inRegionZeroCriteria).records
          = [addPopup parcelAway]
      ∧ (spatial_spec trivOps
            (predicate_filter inRegionZeroCriteria [parcelAway])
            43 (-88) 0).map addPopup = [] := by
  exact ⟨by decide, by decide, by decide⟩

/-- C2 amended: for every candidate subset and every in-region
proximity query with nonzero radius, the result is exactly the spec's
spatial pipeline applied to the attribute-filtered subset: reproject
the query point and the subset into the fixed planar CRS `EPSG:32616`,
buffer the point by `radius_miles * 1609.34` meters, retain exactly the
candidates whose geometry intersects the buffer, reproject the retained
records back to `EPSG:4326`, with no error signalled. -/
theorem spatial_stage_correct {G : Type} (ops : GeoOps G)
    (gdf : List (Parcel G)) (c : Criteria) (la lo dm : ℚ)
    (hla : c.lat = some la) (hlo : c.lon = some lo)
    (hdm : c.distance_miles = some dm) (hdm0 : dm ≠ 0)
    (hreg : 42 ≤ la ∧ la ≤ 44 ∧ -89 ≤ lo ∧ lo ≤ -87) :
    filter_parcels ops gdf c
      = { records :=
            (spatial_spec ops (predicate_filter c gdf) la lo dm).map addPopup,
          errorMsg := none }
      ∧ ∀ q, q ∈ (filter_parcels ops gdf c).records ↔
          ∃ p, p ∈ predicate_filter c gdf
            ∧ ops.intersects (ops.toCrs p.geometry utm_crs)
                (ops.buffer (ops.toCrs (ops.mkPointWgs84 lo la) utm_crs)
                  (dm * mileInMeters)) = true
            ∧ q = addPopup (projTo ops "EPSG:4326" (projTo ops utm_crs p)) := by
  have hnz : la ≠ 0 ∧ lo ≠ 0 ∧ dm ≠ 0 := by
    refine ⟨?_, ?_, hdm0⟩
    · intro h
      rw [h] at hreg
      norm_num at hreg
    · intro h
      rw [h] at hreg
      norm_num at hreg
  have heq := filter_parcels_spatial ops gdf c la lo dm hla hlo hdm hnz hreg
  refine ⟨heq, ?_⟩
  intro q
  rw [heq]
  constructor
  · intro hq
    rcases List.mem_map.mp hq with ⟨r, hr, rfl⟩
    simp only [spatial_spec] at hr
    rcases List.mem_map.mp hr with ⟨s, hs, rfl⟩
    rcases List.mem_filter.mp hs with ⟨hs1, hint⟩
    rcases List.mem_map.mp hs1 with ⟨p, hp, rfl⟩
    exact ⟨p, hp, hint, rfl⟩
  · rintro ⟨p, hp, hint, rfl⟩
    apply List.mem_map.mpr
    refine ⟨projTo ops "EPSG:4326" (projTo ops utm_crs p), ?_, rfl⟩
    simp only [spatial_spec]
    apply List.mem_map.mpr
    refine ⟨projTo ops utm_crs p, ?_, rfl⟩
    exact List.mem_filter.mpr ⟨List.mem_map.mpr ⟨p, hp, rfl⟩, hint⟩

/-- A parcel located exactly at the C2 witness query point. -/
def parcelAtPoint : Parcel (ℚ × ℚ) :=
  { testParcel with geometry := (-88, 43) }

/-- Criteria with an in-region proximity query of radius 3. -/
def inRegionCriteria : Criteria :=
  { openCriteria with
      lat := some 43, lon := some (-88), distance_miles := some 3 }

/-- C2 amended, witness: a concrete in-region query with nonzero radius
on a record at the query point. -/
theorem spatial_stage_correct_witness :
    inRegionCriteria.lat = some 43
      ∧ inRegionCriteria.lon = some (-88)
      ∧ inRegionCriteria.distance_miles = some 3
      ∧ ((3 : ℚ) ≠ 0)
      ∧ (42 ≤ (43 : ℚ) ∧ (43 : ℚ) ≤ 44 ∧ -89 ≤ (-88 : ℚ) ∧ (-88 : ℚ) ≤ -87)
      ∧ (filter_parcels trivOps [parcelAtPoint] inRegionCriteria
          = { records :=
                (spatial_spec trivOps
                  (predicate_filter inRegionCriteria [parcelAtPoint])
                  43 (-88) 3).map addPopup,
              errorMsg := none }
        ∧ ∀ q, q ∈ (filter_parcels trivOps [parcelAtPoint] inRegionCriteria).records ↔
            ∃ p, p ∈ predicate_filter inRegionCriteria [parcelAtPoint]
              ∧ trivOps.intersects (trivOps.toCrs p.geometry utm_crs)
                  (trivOps.buffer
                    (trivOps.toCrs (trivOps.mkPointWgs84 (-88) 43) utm_crs)
                    (3 * mileInMeters)) = true
              ∧ q = addPopup (projTo trivOps "EPSG:4326"
                  (projTo trivOps utm_crs p))) :=
  ⟨rfl, rfl, rfl, by decide, by decide,
    spatial_stage_correct trivOps [parcelAtPoint] inRegionCriteria 43 (-88) 3
      rfl rfl rfl (by decide) (by decide)⟩

/-- C4: a filtered result of more than 1000 records renders and
tabulates exactly the first 1000 records with the truncation flag set,
while the reported count is the true filtered count; a result of at
most 1000 records renders and tabulates all records with the flag
clear. -/
theorem truncation_policy {α : Type} (l : List α) :
    (1000 < l.length →
      (generate_map_rendered l).2 = true
        ∧ (generate_map_rendered l).1 = l.take 1000
        ∧ (generate_map_rendered l).1.length = 1000
        ∧ table_truncated l = true
        ∧ table_rows l = l.take 1000
        ∧ (table_rows l).length = 1000
        ∧ reported_count l = l.length)
    ∧ (l.length ≤ 1000 →
      (generate_map_rendered l).2 = false
        ∧ (generate_map_rendered l).1 = l
        ∧ table_truncated l = false
        ∧ table_rows l = l
        ∧ reported_count l = l.length) := by
  constructor
  · intro h
    have hne : l.isEmpty = false := by
      cases l with
      | nil => simp at h
      | cons a as => rfl
    have hlen : (l.take 1000).length = 1000 := by
      rw [List.length_take]
      exact Nat.min_eq_left (Nat.le_of_lt h)
    refine ⟨?_, ?_, ?_, ?_, ?_, ?_, rfl⟩ <;>
      simp [generate_map_rendered, table_rows, table_truncated, hne, h, hlen]
  · intro h
    have hnot : ¬ 1000 < l.length := Nat.not_lt.mpr h
    cases hl : l with
    | nil =>
        refine ⟨?_, ?_, ?_, ?_, rfl⟩ <;>
          simp [generate_map_rendered, table_rows, table_truncated]
    | cons a as =>
        rw [hl] at hnot
        simp only [List.length_cons] at hnot
        have h999 : as.length ≤ 999 := Nat.le_of_succ_le_succ (Nat.not_lt.mp hnot)
        refine ⟨?_, ?_, ?_, ?_, rfl⟩ <;>
          simp [generate_map_rendered, table_rows, table_truncated, hnot, h999]

/-- C4 witness: a concrete 1001-record result is truncated to exactly
1000 rendered records while the reported count stays 1001. -/
theorem truncation_policy_witness :
    1000 < (List.replicate 1001 (0 : Nat)).length
      ∧ ((generate_map_rendered (List.replicate 1001 (0 : Nat))).2 = true
        ∧ (generate_map_rendered (List.replicate 1001 (0 : Nat))).1
            = (List.replicate 1001 (0 : Nat)).take 1000
        ∧ (generate_map_rendered (List.replicate 1001 (0 : Nat))).1.length
            = 1000
        ∧ table_truncated (List.replicate 1001 (0 : Nat)) = true
        ∧ table_rows (List.replicate 1001 (0 : Nat))
            = (List.replicate 1001 (0 : Nat)).take 1000
        ∧ (table_rows (List.replicate 1001 (0 : Nat))).length = 1000
        ∧ reported_count (List.replicate 1001 (0 : Nat))
            = (List.replicate 1001 (0 : Nat)).length)
      ∧ (List.replicate 1001 (0 : Nat)).length = 1001 :=
  ⟨by simp only [List.length_replicate]; omega,
    (truncation_policy (List.replicate 1001 (0 : Nat))).1
      (by simp only [List.length_replicate]; omega),
    by simp only [List.length_replicate]⟩

/-! ## Bounding-box fold lemmas -/

/-- The merged box contains both arguments. -/
theorem bbox_merge_contains (a b : ℚ × ℚ × ℚ × ℚ) :
    bboxContains (bbox_merge a b) a ∧ bboxContains (bbox_merge a b) b := by
  unfold bbox_merge bboxContains
  refine ⟨⟨?_, ?_, ?_, ?_⟩, ⟨?_, ?_, ?_, ?_⟩⟩ <;>
    simp [min_le_left, min_le_right, le_max_left, le_max_right]

/-- Any box containing both arguments contains the merge. -/
theorem bbox_merge_least {B a b : ℚ × ℚ × ℚ × ℚ}
    (ha : bboxContains B a) (hb : bboxContains B b) :
    bboxContains B (bbox_merge a b) := by
  obtain ⟨ha1, ha2, ha3, ha4⟩ := ha
  obtain ⟨hb1, hb2, hb3, hb4⟩ := hb
  exact ⟨le_min ha1 hb1, le_min ha2 hb2, max_le ha3 hb3, max_le ha4 hb4⟩

/-- Box containment is transitive. -/
theorem bboxContains_trans {a b c : ℚ × ℚ × ℚ × ℚ}
    (h1 : bboxContains a b) (h2 : bboxContains b c) : bboxContains a c := by
  obtain ⟨x1, x2, x3, x4⟩ := h1
  obtain ⟨y1, y2, y3, y4⟩ := h2
  exact ⟨le_trans x1 y1, le_trans x2 y2, le_trans y3 x3, le_trans y4 x4⟩

/-- Box containment is reflexive. -/
theorem bboxContains_refl (a : ℚ × ℚ × ℚ × ℚ) : bboxContains a a :=
  ⟨le_refl _, le_refl _, le_refl _, le_refl _⟩

/-- The fold of `bbox_merge` over a list contains its starting box and
every element's box. -/
theorem foldl_bbox_contains {G : Type} (ops : GeoOps G)
    (l : List (ParcelOut G)) :
    ∀ b0 : ℚ × ℚ × ℚ × ℚ,
      bboxContains
        (l.foldl (fun acc q => bbox_merge acc (ops.boundsOf q.geometry)) b0) b0
      ∧ ∀ p ∈ l,
          bboxContains
            (l.foldl (fun acc q => bbox_merge acc (ops.boundsOf q.geometry)) b0)
            (ops.boundsOf p.geometry) := by
  induction l with
  | nil =>
      intro b0
      exact ⟨bboxContains_refl b0, by simp⟩
  | cons p ps ih =>
      intro b0
      have h1 := ih (bbox_merge b0 (ops.boundsOf p.geometry))
      constructor
      · exact bboxContains_trans h1.1 (bbox_merge_contains _ _).1
      · intro q hq
        rcases List.mem_cons.mp hq with rfl | hq2
        · exact bboxContains_trans h1.1 (bbox_merge_contains _ _).2
        · exact h1.2 q hq2

/-- The fold of `bbox_merge` is the least box containing the start and
every element's box. -/
theorem foldl_bbox_least {G : Type} (ops : GeoOps G)
    (l : List (ParcelOut G)) :
    ∀ b0 B : ℚ × ℚ × ℚ × ℚ, bboxContains B b0 →
      (∀ p ∈ l, bboxContains B (ops.boundsOf p.geometry)) →
      bboxContains B
        (l.foldl (fun acc q => bbox_merge acc (ops.boundsOf q.geometry)) b0) := by
  induction l with
  | nil =>
      intro b0 B h0 _
      exact h0
  | cons p ps ih =>
      intro b0 B h0 h
      exact ih _ B (bbox_merge_least h0 (h p (List.mem_cons_self p ps)))
        (fun q hq => h q (List.mem_cons_of_mem p hq))

/-- C5: for a non-empty filtered subset the display bounds are the
minimal axis-aligned bounding box of all geometries, expanded on each
side by 10% of the box's extent (width on west/east, height on
south/north); for an empty subset the bounds are `none` and the fixed
default view is used, which differs from every fitted-bounds view. -/
theorem bounds_policy {G : Type} (ops : GeoOps G) (l : List (ParcelOut G)) :
    (l ≠ [] → ∃ b : ℚ × ℚ × ℚ × ℚ,
        total_bounds ops l = some b
        ∧ (∀ p ∈ l, bboxContains b (ops.boundsOf p.geometry))
        ∧ (∀ B, (∀ p ∈ l, bboxContains B (ops.boundsOf p.geometry)) →
            bboxContains B b)
        ∧ compute_map_bounds ops l
            = some ((b.2.1 - (b.2.2.2 - b.2.1) * (1 / 10),
                     b.1 - (b.2.2.1 - b.1) * (1 / 10)),
                    (b.2.2.2 + (b.2.2.2 - b.2.1) * (1 / 10),
                     b.2.2.1 + (b.2.2.1 - b.1) * (1 / 10))))
    ∧ (l = [] → compute_map_bounds ops l = none
        ∧ displayed_view ops (some l) = MapView.defaultView
        ∧ ∀ bb, MapView.defaultView ≠ MapView.fitBounds bb) := by
  constructor
  · intro hne
    cases l with
    | nil => exact absurd rfl hne
    | cons p ps =>
        rcases hb : ps.foldl (fun acc q => bbox_merge acc (ops.boundsOf q.geometry))
            (ops.boundsOf p.geometry) with ⟨mnx, mny, mxx, mxy⟩
        have hfold := foldl_bbox_contains ops ps (ops.boundsOf p.geometry)
        refine ⟨(mnx, mny, mxx, mxy), ?_, ?_, ?_, ?_⟩
        · simp [total_bounds, hb]
        · intro q hq
          rcases List.mem_cons.mp hq with rfl | hq2
          · exact hb ▸ hfold.1
          · exact hb ▸ hfold.2 q hq2
        · intro B hB
          have := foldl_bbox_least ops ps (ops.boundsOf p.geometry) B
            (hB p (List.mem_cons_self p ps))
            (fun q hq => hB q (List.mem_cons_of_mem p hq))
          exact hb ▸ this
        · simp [compute_map_bounds, total_bounds, hb]
  · intro hl
    subst hl
    refine ⟨rfl, rfl, ?_⟩
    intro bb h
    exact MapView.noConfusion h

/-- C5 witness: a singleton subset has computed padded bounds, and the
empty subset falls back to the default view. -/
theorem bounds_policy_witness :
    ([addPopup testParcel] ≠ [])
      ∧ (∃ b : ℚ × ℚ × ℚ × ℚ,
          total_bounds trivOps [addPopup testParcel] = some b
          ∧ (∀ p ∈ [addPopup testParcel],
              bboxContains b (trivOps.boundsOf p.geometry))
          ∧ (∀ B, (∀ p ∈ [addPopup testParcel],
                bboxContains B (trivOps.boundsOf p.geometry)) →
              bboxContains B b)
          ∧ compute_map_bounds trivOps [addPopup testParcel]
              = some ((b.2.1 - (b.2.2.2 - b.2.1) * (1 / 10),
                       b.1 - (b.2.2.1 - b.1) * (1 / 10)),
                      (b.2.2.2 + (b.2.2.2 - b.2.1) * (1 / 10),
                       b.2.2.1 + (b.2.2.1 - b.1) * (1 / 10)))) :=
  ⟨by simp,
    (bounds_policy trivOps [addPopup testParcel]).1 (by simp)⟩

/-- Filtering by a stronger predicate yields a sublist of filtering by
a weaker one. -/
theorem filter_sublist_filter_of_imp {α : Type} (l : List α) (p q : α → Bool)
    (h : ∀ a, q a = true → p a = true) :
    List.Sublist (l.filter q) (l.filter p) := by
  induction l with
  | nil => simp
  | cons a l ih =>
      by_cases hq : q a = true
      · have hp := h a hq
        rw [List.filter_cons_of_pos hq, List.filter_cons_of_pos hp]
        exact List.Sublist.cons₂ a ih
      · rw [List.filter_cons_of_neg hq]
        by_cases hp : p a = true
        · rw [List.filter_cons_of_pos hp]
          exact List.Sublist.cons a ih
        · rw [List.filter_cons_of_neg hp]
          exact ih

/-- The spatial pipeline preserves sublists of candidate subsets. -/
theorem spatial_spec_sublist {G : Type} (ops : GeoOps G)
    {A B : List (Parcel G)} (h : List.Sublist A B) (la lo dm : ℚ) :
    List.Sublist (spatial_spec ops A la lo dm) (spatial_spec ops B la lo dm) := by
  unfold spatial_spec
  exact ((h.map (projTo ops utm_crs)).filter _).map (projTo ops "EPSG:4326")

/-- When two criteria share their proximity triple and the second's
mask implies the first's, the second filter result is a sublist of the
first. -/
theorem records_sublist_of_mask_imp {G : Type} (ops : GeoOps G)
    (gdf : List (Parcel G)) (c1 c2 : Criteria)
    (hlat : c2.lat = c1.lat) (hlon : c2.lon = c1.lon)
    (hdst : c2.distance_miles = c1.distance_miles)
    (hmask : ∀ p : Parcel G, parcelMask c2 p = true → parcelMask c1 p = true) :
    List.Sublist (filter_parcels ops gdf c2).records
      (filter_parcels ops gdf c1).records := by
  have hsub : List.Sublist (predicate_filter c2 gdf) (predicate_filter c1 gdf) :=
    filter_sublist_filter_of_imp gdf _ _ hmask
  rcases hla : c1.lat with _ | la
  · rw [filter_parcels_no_proximity ops gdf c1 (Or.inl hla),
      filter_parcels_no_proximity ops gdf c2 (Or.inl (hlat.trans hla))]
    exact hsub.map addPopup
  · rcases hlo : c1.lon with _ | lo
    · rw [filter_parcels_no_proximity ops gdf c1 (Or.inr (Or.inl hlo)),
        filter_parcels_no_proximity ops gdf c2 (Or.inr (Or.inl (hlon.trans hlo)))]
      exact hsub.map addPopup
    · rcases hdm : c1.distance_miles with _ | dm
      · rw [filter_parcels_no_proximity ops gdf c1 (Or.inr (Or.inr hdm)),
          filter_parcels_no_proximity ops gdf c2
            (Or.inr (Or.inr (hdst.trans hdm)))]
        exact hsub.map addPopup
      · by_cases hnz : la ≠ 0 ∧ lo ≠ 0 ∧ dm ≠ 0
        · by_cases hreg : 42 ≤ la ∧ la ≤ 44 ∧ -89 ≤ lo ∧ lo ≤ -87
          · rw [filter_parcels_spatial ops gdf c1 la lo dm hla hlo hdm hnz hreg,
              filter_parcels_spatial ops gdf c2 la lo dm (hlat.trans hla)
                (hlon.trans hlo) (hdst.trans hdm) hnz hreg]
            exact (spatial_spec_sublist ops hsub la lo dm).map addPopup
          · rw [filter_parcels_out_of_region ops gdf c1 la lo dm hla hlo hdm
                hnz hreg,
              filter_parcels_out_of_region ops gdf c2 la lo dm (hlat.trans hla)
                (hlon.trans hlo) (hdst.trans hdm) hnz hreg]
        · rw [filter_parcels_zero ops gdf c1 la lo dm hla hlo hdm hnz,
            filter_parcels_zero ops gdf c2 la lo dm (hlat.trans hla)
              (hlon.trans hlo) (hdst.trans hdm) hnz]
          exact hsub.map addPopup

/-- C7: when criteria `c2` equal criteria `c1` plus one additional
active restriction, the record set of `filter(D, c2)` is a subset of
the record set of `filter(D, c1)` (assuming CRS reprojection to the
planar CRS and back restores a geometry, as exact reprojection does). -/
theorem filter_monotone {G : Type} (ops : GeoOps G)
    (hops : ∀ g : G, ops.toCrs (ops.toCrs g utm_crs) "EPSG:4326" = g)
    (gdf : List (Parcel G)) (c1 c2 : Criteria) (h : AddsRestriction c1 c2) :
    ∀ q ∈ (filter_parcels ops gdf c2).records,
      q ∈ (filter_parcels ops gdf c1).records := by
  cases h with
  | owner w hw =>
      intro q hq
      have hmask : ∀ p : Parcel G,
          parcelMask { c1 with owner_name := w } p = true →
            parcelMask c1 p = true := by
        intro p hm
        simp only [parcelMask, Bool.and_eq_true] at hm ⊢
        obtain ⟨⟨⟨⟨⟨h1, _⟩, h3⟩, h4⟩, h5⟩, h6⟩ := hm
        exact ⟨⟨⟨⟨⟨h1, by rw [if_pos hw]⟩, h3⟩, h4⟩, h5⟩, h6⟩
      exact (records_sublist_of_mask_imp ops gdf c1
        { c1 with owner_name := w } rfl rfl rfl hmask).subset hq
  | place l hw =>
      intro q hq
      have hmask : ∀ p : Parcel G,
          parcelMask { c1 with placenames := l } p = true →
            parcelMask c1 p = true := by
        intro p hm
        simp only [parcelMask, Bool.and_eq_true] at hm ⊢
        obtain ⟨⟨⟨⟨⟨h1, h2⟩, _⟩, h4⟩, h5⟩, h6⟩ := hm
        exact ⟨⟨⟨⟨⟨h1, h2⟩, by rw [if_pos hw]⟩, h4⟩, h5⟩, h6⟩
      exact (records_sublist_of_mask_imp ops gdf c1
        { c1 with placenames := l } rfl rfl rfl hmask).subset hq
  | zip l hw =>
      intro q hq
      have hmask : ∀ p : Parcel G,
          parcelMask { c1 with zipcodes := l } p = true →
            parcelMask c1 p = true := by
        intro p hm
        simp only [parcelMask, Bool.and_eq_true] at hm ⊢
        obtain ⟨⟨⟨⟨⟨h1, h2⟩, h3⟩, _⟩, h5⟩, h6⟩ := hm
        exact ⟨⟨⟨⟨⟨h1, h2⟩, h3⟩, by rw [if_pos hw]⟩, h5⟩, h6⟩
      exact (records_sublist_of_mask_imp ops gdf c1
        { c1 with zipcodes := l } rfl rfl rfl hmask).subset hq
  | school l hw =>
      intro q hq
      have hmask : ∀ p : Parcel G,
          parcelMask { c1 with schooldists := l } p = true →
            parcelMask c1 p = true := by
        intro p hm
        simp only [parcelMask, Bool.and_eq_true] at hm ⊢
        obtain ⟨⟨⟨⟨⟨h1, h2⟩, h3⟩, h4⟩, _⟩, h6⟩ := hm
        exact ⟨⟨⟨⟨⟨h1, h2⟩, h3⟩, h4⟩, by rw [if_pos hw]⟩, h6⟩
      exact (records_sublist_of_mask_imp ops gdf c1
        { c1 with schooldists := l } rfl rfl rfl hmask).subset hq
  | value lo hi hw =>
      intro q hq
      have hmask : ∀ p : Parcel G,
          parcelMask { c1 with estfmkvalu_min := some lo, estfmkvalu_max := some hi } p = true →
            parcelMask c1 p = true := by
        intro p hm
        simp only [parcelMask, Bool.and_eq_true] at hm ⊢
        obtain ⟨⟨⟨⟨⟨h1, h2⟩, h3⟩, h4⟩, h5⟩, _⟩ := hm
        refine ⟨⟨⟨⟨⟨h1, h2⟩, h3⟩, h4⟩, h5⟩, ?_⟩
        rcases hw with h | h <;>
          rcases hmin : c1.estfmkvalu_min with _ | a <;>
            rcases hmax : c1.estfmkvalu_max with _ | b <;> simp_all
      exact (records_sublist_of_mask_imp ops gdf c1
        { c1 with estfmkvalu_min := some lo, estfmkvalu_max := some hi }
        rfl rfl rfl hmask).subset hq
  | proximity la lo dm hw =>
      intro q hq
      obtain ⟨hl1, _, _⟩ := hw
      rw [filter_parcels_no_proximity ops gdf c1 (Or.inl hl1)]
      by_cases hnz : la ≠ 0 ∧ lo ≠ 0 ∧ dm ≠ 0
      · by_cases hreg : 42 ≤ la ∧ la ≤ 44 ∧ -89 ≤ lo ∧ lo ≤ -87
        · rw [filter_parcels_spatial ops gdf _ la lo dm rfl rfl rfl hnz hreg]
            at hq
          rcases List.mem_map.mp hq with ⟨r, hr, rfl⟩
          simp only [spatial_spec] at hr
          rcases List.mem_map.mp hr with ⟨s, hs, rfl⟩
          rcases List.mem_filter.mp hs with ⟨hs1, _⟩
          rcases List.mem_map.mp hs1 with ⟨p, hp, rfl⟩
          have hroundtrip : projTo ops "EPSG:4326" (projTo ops utm_crs p) = p := by
            unfold projTo
            rw [hops p.geometry]
          rw [hroundtrip]
          exact List.mem_map.mpr ⟨p, hp, rfl⟩
        · rw [filter_parcels_out_of_region ops gdf _ la lo dm rfl rfl rfl
            hnz hreg] at hq
          simp at hq
      · rw [filter_parcels_zero ops gdf _ la lo dm rfl rfl rfl hnz] at hq
        exact hq

/-- C7 witness: adding an owner restriction to the unrestricted
criteria on a concrete dataset. -/
theorem filter_monotone_witness :
    (∀ g : ℚ × ℚ, trivOps.toCrs (trivOps.toCrs g utm_crs) "EPSG:4326" = g)
      ∧ AddsRestriction openCriteria { openCriteria with owner_name := "SMITH" }
      ∧ ∀ q ∈ (filter_parcels trivOps [testParcel, parcelAB]
            { openCriteria with owner_name := "SMITH" }).records,
          q ∈ (filter_parcels trivOps [testParcel, parcelAB]
            openCriteria).records :=
  ⟨fun _ => rfl,
    AddsRestriction.owner openCriteria "SMITH" rfl,
    filter_monotone trivOps (fun _ => rfl) [testParcel, parcelAB] openCriteria
      { openCriteria with owner_name := "SMITH" }
      (AddsRestriction.owner openCriteria "SMITH" rfl)⟩

/-! ## Frame lemmas for the heap model -/

/-- Appending fresh objects leaves every existing cell unchanged. -/
theorem frame_append {α : Type} (h : List α) (ext : List α) :
    ∀ i, i < h.length → (h ++ ext)[i]? = h[i]? :=
  fun _ hi => List.getElem?_append_left hi

/-- Appending fresh objects and writing one of them leaves every
existing cell unchanged. -/
theorem frame_append_set {α : Type} (h : List α) (ext : List α) (j : Nat)
    (o : α) (hj : h.length ≤ j) :
    ∀ i, i < h.length → ((h ++ ext).set j o)[i]? = h[i]? := by
  intro i hi
  rw [List.getElem?_set_ne (Nat.ne_of_lt (Nat.lt_of_lt_of_le hi hj)).symm]
  exact List.getElem?_append_left hi

/-- Heap run, branch without an (active) proximity stage: one of the
three proximity parameters is absent. -/
theorem filter_parcels_heap_no_prox {G : Type} (ops : GeoOps G)
    (h0 : Heap G) (r : Nat) (c : Criteria) (gdf : List (Parcel G))
    (hgdf : heapReadRaw h0 r = gdf)
    (h : c.lat = none ∨ c.lon = none ∨ c.distance_miles = none) :
    filter_parcels_heap ops h0 r c
      = ((h0 ++ [Obj.raw gdf, Obj.raw (predicate_filter c gdf)]).set
          (h0.length + 1)
          (Obj.withPopup ((predicate_filter c gdf).map addPopup)),
        h0.length + 1, none) := by
  subst hgdf
  unfold filter_parcels_heap heapAlloc
  rcases hla : c.lat with _ | la <;> rcases hlo : c.lon with _ | lo <;>
    rcases hdm : c.distance_miles with _ | dm <;>
      simp_all [List.append_assoc]

/-- Heap run, branch where the proximity triple is supplied but falsy
(some parameter is zero). -/
theorem filter_parcels_heap_zero {G : Type} (ops : GeoOps G)
    (h0 : Heap G) (r : Nat) (c : Criteria) (gdf : List (Parcel G))
    (la lo dm : ℚ) (hgdf : heapReadRaw h0 r = gdf)
    (hla : c.lat = some la) (hlo : c.lon = some lo)
    (hdm : c.distance_miles = some dm)
    (hz : ¬ (la ≠ 0 ∧ lo ≠ 0 ∧ dm ≠ 0)) :
    filter_parcels_heap ops h0 r c
      = ((h0 ++ [Obj.raw gdf, Obj.raw (predicate_filter c gdf)]).set
          (h0.length + 1)
          (Obj.withPopup ((predicate_filter c gdf).map addPopup)),
        h0.length + 1, none) := by
  subst hgdf
  unfold filter_parcels_heap heapAlloc
  rw [hla, hlo, hdm]
  simp [if_neg hz, List.append_assoc]

/-- Heap run, out-of-region branch: a fresh empty frame is allocated
and returned with the error message. -/
theorem filter_parcels_heap_out {G : Type} (ops : GeoOps G)
    (h0 : Heap G) (r : Nat) (c : Criteria) (gdf : List (Parcel G))
    (la lo dm : ℚ) (hgdf : heapReadRaw h0 r = gdf)
    (hla : c.lat = some la) (hlo : c.lon = some lo)
    (hdm : c.distance_miles = some dm)
    (hnz : la ≠ 0 ∧ lo ≠ 0 ∧ dm ≠ 0)
    (hreg : ¬ (42 ≤ la ∧ la ≤ 44 ∧ -89 ≤ lo ∧ lo ≤ -87)) :
    filter_parcels_heap ops h0 r c
      = (h0 ++ [Obj.raw gdf, Obj.raw (predicate_filter c gdf), Obj.raw []],
        h0.length + 2, some outOfRangeMsg) := by
  subst hgdf
  unfold filter_parcels_heap heapAlloc
  rw [hla, hlo, hdm]
  simp [if_pos hnz, if_neg hreg, List.append_assoc]

/-- Heap run, spatial branch: three further frames are allocated and
the popup column is written to the last one. -/
theorem filter_parcels_heap_spatial {G : Type} (ops : GeoOps G)
    (h0 : Heap G) (r : Nat) (c : Criteria) (gdf : List (Parcel G))
    (la lo dm : ℚ) (hgdf : heapReadRaw h0 r = gdf)
    (hla : c.lat = some la) (hlo : c.lon = some lo)
    (hdm : c.distance_miles = some dm)
    (hnz : la ≠ 0 ∧ lo ≠ 0 ∧ dm ≠ 0)
    (hreg : 42 ≤ la ∧ la ≤ 44 ∧ -89 ≤ lo ∧ lo ≤ -87) :
    filter_parcels_heap ops h0 r c
      = ((h0 ++ [Obj.raw gdf,
            Obj.raw (predicate_filter c gdf),
            Obj.raw ((predicate_filter c gdf).map (projTo ops utm_crs)),
            Obj.raw (((predicate_filter c gdf).map (projTo ops utm_crs)).filter
              (fun p => ops.intersects p.geometry
                (ops.buffer (ops.toCrs (ops.mkPointWgs84 lo la) utm_crs)
                  (dm * mileInMeters)))),
            Obj.raw (spatial_spec ops (predicate_filter c gdf) la lo dm)]).set
          (h0.length + 4)
          (Obj.withPopup
            ((spatial_spec ops (predicate_filter c gdf) la lo dm).map addPopup)),
        h0.length + 4, none) := by
  subst hgdf
  unfold filter_parcels_heap heapAlloc spatial_spec
  rw [hla, hlo, hdm]
  simp [if_pos hnz, if_pos hreg, List.append_assoc]

/-- C9: a call to the filter never mutates the caller's dataset object
(nor any other pre-existing object): every heap cell that existed
before the call, in particular the input dataset's, is unchanged after
it; the result lives in freshly allocated cells, whose content agrees
with the pure model of `filter_parcels` (the reprojected frames are new
objects, so the original geometries are untouched). -/
theorem filter_no_mutation {G : Type} (ops : GeoOps G) (h0 : Heap G)
    (r : Nat) (c : Criteria) (gdf : List (Parcel G))
    (hr : h0[r]? = some (Obj.raw gdf)) :
    (∀ i, i < h0.length → ((filter_parcels_heap ops h0 r c).1)[i]? = h0[i]?)
    ∧ ((filter_parcels_heap ops h0 r c).1)[r]? = some (Obj.raw gdf)
    ∧ (filter_parcels_heap ops h0 r c).2.2 = (filter_parcels ops gdf c).errorMsg
    ∧ ((filter_parcels ops gdf c).errorMsg = none →
        ((filter_parcels_heap ops h0 r c).1)[(filter_parcels_heap ops h0 r c).2.1]?
          = some (Obj.withPopup (filter_parcels ops gdf c).records)) := by
  obtain ⟨hrlen, -⟩ := List.getElem?_eq_some.mp hr
  have hgdf : heapReadRaw h0 r = gdf := by simp [heapReadRaw, hr]
  rcases hla : c.lat with _ | la
  · rw [filter_parcels_heap_no_prox ops h0 r c gdf hgdf (Or.inl hla),
      filter_parcels_no_proximity ops gdf c (Or.inl hla)]
    refine ⟨?_, ?_, rfl, ?_⟩
    · exact frame_append_set h0 _ _ _ (Nat.le_succ _)
    · exact (frame_append_set h0 _ _ _ (Nat.le_succ _) r hrlen).trans hr
    · intro _
      exact List.getElem?_set_self (by simp)
  · rcases hlo : c.lon with _ | lo
    · rw [filter_parcels_heap_no_prox ops h0 r c gdf hgdf (Or.inr (Or.inl hlo)),
        filter_parcels_no_proximity ops gdf c (Or.inr (Or.inl hlo))]
      refine ⟨?_, ?_, rfl, ?_⟩
      · exact frame_append_set h0 _ _ _ (Nat.le_succ _)
      · exact (frame_append_set h0 _ _ _ (Nat.le_succ _) r hrlen).trans hr
      · intro _
        exact List.getElem?_set_self (by simp)
    · rcases hdm : c.distance_miles with _ | dm
      · rw [filter_parcels_heap_no_prox ops h0 r c gdf hgdf
            (Or.inr (Or.inr hdm)),
          filter_parcels_no_proximity ops gdf c (Or.inr (Or.inr hdm))]
        refine ⟨?_, ?_, rfl, ?_⟩
        · exact frame_append_set h0 _ _ _ (Nat.le_succ _)
        · exact (frame_append_set h0 _ _ _ (Nat.le_succ _) r hrlen).trans hr
        · intro _
          exact List.getElem?_set_self (by simp)
      · by_cases hnz : la ≠ 0 ∧ lo ≠ 0 ∧ dm ≠ 0
        · by_cases hreg : 42 ≤ la ∧ la ≤ 44 ∧ -89 ≤ lo ∧ lo ≤ -87
          · rw [filter_parcels_heap_spatial ops h0 r c gdf la lo dm hgdf
                hla hlo hdm hnz hreg,
              filter_parcels_spatial ops gdf c la lo dm hla hlo hdm hnz hreg]
            refine ⟨?_, ?_, rfl, ?_⟩
            · exact frame_append_set h0 _ _ _ (by omega)
            · exact (frame_append_set h0 _ _ _ (by omega) r hrlen).trans hr
            · intro _
              exact List.getElem?_set_self (by simp)
          · rw [filter_parcels_heap_out ops h0 r c gdf la lo dm hgdf
                hla hlo hdm hnz hreg,
              filter_parcels_out_of_region ops gdf c la lo dm hla hlo hdm
                hnz hreg]
            refine ⟨?_, ?_, rfl, ?_⟩
            · exact frame_append h0 _
            · exact (frame_append h0 _ r hrlen).trans hr
            · intro hcontra
              simp at hcontra
        · rw [filter_parcels_heap_zero ops h0 r c gdf la lo dm hgdf
              hla hlo hdm hnz,
            filter_parcels_zero ops gdf c la lo dm hla hlo hdm hnz]
          refine ⟨?_, ?_, rfl, ?_⟩
          · exact frame_append_set h0 _ _ _ (Nat.le_succ _)
          · exact (frame_append_set h0 _ _ _ (Nat.le_succ _) r hrlen).trans hr
          · intro _
            exact List.getElem?_set_self (by simp)

/-- C9 witness: a concrete one-cell heap holding a concrete dataset. -/
theorem filter_no_mutation_witness :
    (([Obj.raw [testParcel]] : Heap (ℚ × ℚ))[0]?
        = some (Obj.raw [testParcel]))
      ∧ ((∀ i, i < ([Obj.raw [testParcel]] : Heap (ℚ × ℚ)).length →
            ((filter_parcels_heap trivOps [Obj.raw [testParcel]] 0
                openCriteria).1)[i]?
              = ([Obj.raw [testParcel]] : Heap (ℚ × ℚ))[i]?)
        ∧ ((filter_parcels_heap trivOps [Obj.raw [testParcel]] 0
              openCriteria).1)[0]? = some (Obj.raw [testParcel])
        ∧ (filter_parcels_heap trivOps [Obj.raw [testParcel]] 0
              openCriteria).2.2
            = (filter_parcels trivOps [testParcel] openCriteria).errorMsg
        ∧ ((filter_parcels trivOps [testParcel] openCriteria).errorMsg = none →
            ((filter_parcels_heap trivOps [Obj.raw [testParcel]] 0
                openCriteria).1)[(filter_parcels_heap trivOps
                  [Obj.raw [testParcel]] 0 openCriteria).2.1]?
              = some (Obj.withPopup
                  (filter_parcels trivOps [testParcel] openCriteria).records))) :=
  ⟨rfl,
    filter_no_mutation trivOps [Obj.raw [testParcel]] 0 openCriteria
      [testParcel] rfl⟩

end Waukesha
